import Mathlib

/-!
# TCPie — shallow embedding and verification

Shallow embedding of the concurrency core of the `tcpie` TCP server:

* `internals/rate-limiter/rate-limiter.go` — token-bucket rate limiter
  (`TokenBucket`, `RateLimiter`, `refillBucket`, `IsReqAllowed`);
* `internals/worker.go` — worker pool (`Job`, `WorkerPool`,
  `NewWorkerPool`, `worker`/`processRequests`, `SubmitJob`, `Close`);
* `internals/server.go` — dispatcher (`Server`, `handleRequests`):
  accept loop, rate-limit gate, non-blocking `select` submission with
  `recover` on the closed-channel panic.

Modelling conventions: Go `float64` arithmetic is modelled over `ℚ`
(the quantities involved are exact small rationals, and the relevant
defect is the `int64(...)` truncation, which is exact); `time.Time` is a
rational number of seconds; `int64` fields are `ℤ`; a Go buffered
channel is a list of queued elements with a capacity and a closed flag;
goroutine interleavings are small-step transition relations.
-/

namespace Tcpie

/-! ## Token bucket (rate-limiter.go) -/

/-- The `TokenBucket` struct from rate-limiter.go: `MaxTokens`, `Tokens`,
`Rate` are Go `int64`; `LastRefill` is a `time.Time`, modelled as a
rational number of seconds.  The mutex is a concurrency artifact with no
sequential content and is omitted. -/
structure TokenBucket where
  MaxTokens : ℤ
  Tokens : ℤ
  Rate : ℤ
  LastRefill : ℚ
deriving DecidableEq, Repr

/-- Go's `int64(f)` conversion of a `float64`, which rounds toward zero
(floor for nonnegative values, ceiling for negative ones). -/
def goInt64OfFloat (q : ℚ) : ℤ :=
  if 0 ≤ q then ⌊q⌋ else ⌈q⌉

/-- The `RateLimiter(rate, tokens)` constructor: starts with a full bucket
(`Tokens = tokens`), `LastRefill = time.Now()` (the `now` argument). -/
def RateLimiter (rate tokens : ℤ) (now : ℚ) : TokenBucket :=
  { MaxTokens := tokens
    Tokens := tokens
    Rate := rate
    LastRefill := now }

/-- Method `(*TokenBucket).refillBucket`:
`elapsed := now.Sub(tb.LastRefill)`, `secondsElapsed := elapsed.Seconds()`,
`tokensToAdd := secondsElapsed * float64(tb.Rate)`,
`newTokens := float64(tb.Tokens) + tokensToAdd`,
`tb.Tokens = int64(math.Min(newTokens, float64(tb.MaxTokens)))`,
`tb.LastRefill = now`. -/
def refillBucket (tb : TokenBucket) (now : ℚ) : TokenBucket :=
  let elapsed : ℚ := now - tb.LastRefill
  let secondsElapsed : ℚ := elapsed
  let tokensToAdd : ℚ := secondsElapsed * (tb.Rate : ℚ)
  let newTokens : ℚ := (tb.Tokens : ℚ) + tokensToAdd
  { tb with
    Tokens := goInt64OfFloat (min newTokens (tb.MaxTokens : ℚ))
    LastRefill := now }

/-- Method `(*TokenBucket).IsReqAllowed` at wall-clock time `now`: refill, then
if `tb.Tokens > 0` decrement and allow, else deny.  Returns the decision
together with the updated bucket state. -/
def IsReqAllowed (tb : TokenBucket) (now : ℚ) : Bool × TokenBucket :=
  let tb2 := refillBucket tb now
  if tb2.Tokens > 0 then
    (true, { tb2 with Tokens := tb2.Tokens - 1 })
  else
    (false, tb2)

/-! ## Jobs, the buffered job channel, and the worker pool (worker.go) -/

/-- The `Job` struct from worker.go: an id and ownership of one connection.
The `net.Conn` handle is modelled as a numeric connection identifier. -/
structure Job where
  Id : ℤ
  Conn : ℕ
deriving DecidableEq, Repr

/-- A Go buffered channel of `Job`s: the queued elements in FIFO order,
the buffer capacity (`make(chan Job, capacity)`), and whether `close`
has been called.  In worker.go the capacity is `maxWorkers + queueSize`. -/
structure ChanState where
  buffer : List Job
  capacity : ℕ
  closed : Bool
deriving DecidableEq, Repr

/-- The constructor `NewWorkerPool(maxWorkers, queueSize)` allocates the job channel with
`make(chan Job, maxWorkers+queueSize)`: open and empty. -/
def newJobChan (maxWorkers queueSize : ℕ) : ChanState :=
  { buffer := [], capacity := maxWorkers + queueSize, closed := false }

/-- Outcome of an unconditional Go channel send `ch <- j`:
delivered into buffer space, suspended because the buffer is full (the
send blocks until a receiver frees space), or a runtime panic because the
channel is closed. -/
inductive BlockingSend where
  | delivered (c : ChanState)
  | blocked
  | panicked
deriving DecidableEq, Repr

/-- Method `(*WorkerPool).SubmitJob(j)`, whose whole body is the unconditional
send `w.JobChan <- j`. -/
def SubmitJob (c : ChanState) (j : Job) : BlockingSend :=
  if c.closed then .panicked
  else if c.buffer.length < c.capacity then
    .delivered { c with buffer := c.buffer ++ [j] }
  else .blocked

/-- Outcome of the dispatcher's `select { case ch <- j: ... default: ... }`:
the send case fires when buffer space is free; the `default` case fires
when the channel is open and full; a send on a closed channel is always
ready and panics (Go semantics), so `default` is not taken then. -/
inductive TrySend where
  | sent (c : ChanState)
  | full
  | closedPanic
deriving DecidableEq, Repr

/-- The dispatcher's non-blocking submission: the `select`/`default` on
`s.JobChan` in `handleRequests` (server.go), applied directly to the
channel — it does not go through `SubmitJob`. -/
def selectTrySend (c : ChanState) (j : Job) : TrySend :=
  if c.closed then .closedPanic
  else if c.buffer.length < c.capacity then
    .sent { c with buffer := c.buffer ++ [j] }
  else .full

/-! ## Wire responses (server.go and worker.go literals) -/

/-- One of the fixed HTTP responses the server writes, split into the
parts of the source's byte-string literal: status line, the declared
`Content-Length` header value, and the body after the blank line. -/
structure HttpResponse where
  statusLine : String
  declaredContentLength : ℕ
  body : String
deriving DecidableEq, Repr

/-- The full wire bytes of a response, reassembling the source literal:
all responses in the source share the shape
`<status line>\r\nConnection: close\r\nContent-Length: <n>\r\n\r\n<body>`. -/
def wire (r : HttpResponse) : String :=
  r.statusLine ++ "\r\nConnection: close\r\nContent-Length: " ++
    toString r.declaredContentLength ++ "\r\n\r\n" ++ r.body

/-- The 429 rejection written by the dispatcher on a rate-limit denial. -/
def resp429 : HttpResponse :=
  { statusLine := "HTTP/1.1 429 Too Many Requests"
    declaredContentLength := 20
    body := "Rate limit exceeded" }

/-- The 503 rejection written by the dispatcher when the queue is full. -/
def resp503Busy : HttpResponse :=
  { statusLine := "HTTP/1.1 503 Service Unavailable"
    declaredContentLength := 28
    body := "Server busy, try again later" }

/-- The 503 rejection written by the dispatcher's `recover` handler when the
submission hits a closed queue during shutdown. -/
def resp503Shutdown : HttpResponse :=
  { statusLine := "HTTP/1.1 503 Service Unavailable"
    declaredContentLength := 28
    body := "Server shutting down" }

/-- The 408 response written by a worker on a read failure/timeout. -/
def resp408 : HttpResponse :=
  { statusLine := "HTTP/1.1 408 Request Timeout"
    declaredContentLength := 0
    body := "" }

/-- The 200 success response written by a worker. -/
def resp200 : HttpResponse :=
  { statusLine := "HTTP/1.1 200 OK"
    declaredContentLength := 14
    body := "Hello world !\n" }

/-! ## Dispatcher (handleRequests in server.go) -/

/-- Dispatcher-visible mutable state: the shared rate limiter
(`s.reqLimiter`), the job channel (`s.JobChan`, reached through the
embedded `WorkerPool`), the atomic connection counter `connCount`, and
the `processed` requests metric. -/
structure DispState where
  limiter : TokenBucket
  chan : ChanState
  connCount : ℤ
  processedMetric : ℕ
deriving DecidableEq, Repr

/-- The classification of one accept-loop iteration's handling of a
connection. -/
inductive Admission where
  | rateLimited
  | accepted
  | busy
  | shuttingDown
deriving DecidableEq, Repr

/-- What the dispatcher did to the connection in one iteration: the
admission outcome, the response it wrote synchronously (if any), whether
it closed the connection, and whether an unrecovered panic escaped and
crashed the accept loop. -/
structure ConnResult where
  outcome : Admission
  responseWritten : Option HttpResponse
  connClosed : Bool
  crashed : Bool
deriving DecidableEq, Repr

/-- The dispatcher's rate-limit gate
`s.reqLimiter.MaxTokens > 0 && !s.reqLimiter.IsReqAllowed()`:
returns whether the request is denied, plus the limiter state after the
check.  Go's `&&` short-circuits, so with `MaxTokens ≤ 0` the limiter is
never consulted and its state is untouched. -/
def rateCheckDenies (tb : TokenBucket) (now : ℚ) : Bool × TokenBucket :=
  if tb.MaxTokens > 0 then
    let r := IsReqAllowed tb now
    (!r.1, r.2)
  else
    (false, tb)

/-- One iteration of `handleRequests` (server.go) after `Accept`
returned the connection `client`, at wall-clock time `now`:
increment the atomic counter; rate-limit gate (429 on denial); then the
`select` submission wrapped in `defer`/`recover`, so a send on the closed
channel during shutdown becomes the 503 shutting-down rejection instead
of a crash; a full queue takes the `default` branch and becomes the 503
busy rejection; an accepted job increments the `processed` metric and
ownership of the connection passes to a worker (the dispatcher neither
writes nor closes). -/
def handleConn (s : DispState) (client : ℕ) (now : ℚ) : DispState × ConnResult :=
  let connID := s.connCount + 1
  let rc := rateCheckDenies s.limiter now
  let s1 : DispState := { s with connCount := connID, limiter := rc.2 }
  if rc.1 then
    (s1, { outcome := .rateLimited, responseWritten := some resp429,
           connClosed := true, crashed := false })
  else
    match selectTrySend s1.chan { Id := connID, Conn := client } with
    | .sent c2 =>
        ({ s1 with chan := c2, processedMetric := s1.processedMetric + 1 },
         { outcome := .accepted, responseWritten := none,
           connClosed := false, crashed := false })
    | .full =>
        (s1, { outcome := .busy, responseWritten := some resp503Busy,
               connClosed := true, crashed := false })
    | .closedPanic =>
        (s1, { outcome := .shuttingDown, responseWritten := some resp503Shutdown,
               connClosed := true, crashed := false })

/-- Running the accept loop over a list of `(connection, time)` events,
accumulating the per-connection results. -/
def runConns (s : DispState) : List (ℕ × ℚ) → DispState × List ConnResult
  | [] => (s, [])
  | (client, now) :: rest =>
      let r := handleConn s client now
      let rr := runConns r.1 rest
      (rr.1, r.2 :: rr.2)

/-! ## Request processor (`processRequests` inside `worker` in worker.go) -/

/-- Observable actions the processor performs on a job's connection, in
order.  Deadline arguments are the source's second counts. -/
inductive Action where
  | setReadDeadline (secs : ℕ)
  | setWriteDeadline (secs : ℕ)
  | write (r : HttpResponse)
  | closeConn
deriving DecidableEq, Repr

/-- Which of the processor's three exit paths was taken. -/
inductive ExitPath where
  | readFailurePath
  | writeFailurePath
  | successPath
deriving DecidableEq, Repr

/-- Function `processRequests` from the worker loop, as the trace of connection
actions it performs, driven by the environment's read outcome
(`readErr`: `Conn.Read` returned an error, e.g. deadline timeout) and
write outcome (`writeErr`, `bytesWritten` for the 200-response write):
read failure → 408 then close; short or failed write → close; success →
close.  Every branch ends in exactly one `closeConn`. -/
def processRequests (readErr : Bool) (writeErr : Bool) (bytesWritten : ℕ) :
    List Action × ExitPath :=
  if readErr then
    ([.setReadDeadline 3, .setWriteDeadline 1, .write resp408, .closeConn],
     .readFailurePath)
  else if writeErr || bytesWritten ≠ (wire resp200).length then
    ([.setReadDeadline 3, .setWriteDeadline 2, .write resp200, .closeConn],
     .writeFailurePath)
  else
    ([.setReadDeadline 3, .setWriteDeadline 2, .write resp200, .closeConn],
     .successPath)

/-! ## Worker-pool in-flight transition system (worker.go + server.go)

States track the queued jobs (the channel buffer, bounded by the
capacity `W + Q` that `NewWorkerPool` allocates) and how many of the `W`
workers currently hold a dequeued job.  Steps are the events of the
running system: a successful non-blocking submission, a worker dequeuing
a job, a worker finishing a job.  (A rejected submission does not change
the state.) -/

/-- Pool configuration: `workerCount` and `queueSize`. -/
structure PoolCfg where
  W : ℕ
  Q : ℕ
deriving DecidableEq, Repr

/-- Queue + workers state for the in-flight bound. -/
structure PoolState where
  buffer : List ℕ
  processing : ℕ
deriving DecidableEq, Repr

/-- Events of the dispatcher/worker system that change the queue or the
set of busy workers. -/
inductive PoolStep (cfg : PoolCfg) : PoolState → PoolState → Prop where
  | submit (j : ℕ) (s : PoolState) (h : s.buffer.length < cfg.W + cfg.Q) :
      PoolStep cfg s { s with buffer := s.buffer ++ [j] }
  | dequeue (j : ℕ) (rest : List ℕ) (s : PoolState)
      (hb : s.buffer = j :: rest) (hw : s.processing < cfg.W) :
      PoolStep cfg s { buffer := rest, processing := s.processing + 1 }
  | finish (s : PoolState) (h : 0 < s.processing) :
      PoolStep cfg s { s with processing := s.processing - 1 }

/-- States reachable from the freshly started pool (empty queue, all
workers idle). -/
def PoolReachable (cfg : PoolCfg) : PoolState → Prop :=
  Relation.ReflTransGen (PoolStep cfg) { buffer := [], processing := 0 }

/-- In-flight jobs: enqueued-but-not-yet-dequeued plus
currently-processing. -/
def inFlight (s : PoolState) : ℕ := s.buffer.length + s.processing

/-- Submitting a list of jobs back-to-back through the non-blocking
path while no worker dequeues (workers held busy): returns the final
buffer and the `(accepted, rejected)` counts. -/
def submitMany (cap : ℕ) : List ℕ → List ℕ → ℕ × ℕ
  | _, [] => (0, 0)
  | buf, j :: rest =>
      if buf.length < cap then
        let r := submitMany cap (buf ++ [j]) rest
        (r.1 + 1, r.2)
      else
        let r := submitMany cap buf rest
        (r.1, r.2 + 1)

/-! ## Shutdown drain transition system (`Close` + `worker` in worker.go)

After `Close()` runs `close(w.JobChan)`, each of the `W` workers is still
in `for job := range w.JobChan`: it keeps receiving the already-buffered
jobs, processes each, and when the closed channel is empty the range
loop ends and the worker calls `w.wg.Done()` exactly once; `wg.Wait()`
(and hence `Close`) returns only when all `W` workers have done so. -/

/-- Status of one worker goroutine during shutdown. -/
inductive WStatus where
  | running
  | processing (j : ℕ)
  | done
deriving DecidableEq, Repr

/-- State of the drain: remaining buffered jobs (FIFO), the multiset of
worker statuses, the multiset of fully processed jobs, the number of
`wg.Done()` calls, and whether `Close`/`wg.Wait` has returned. -/
structure ShutState where
  buffer : List ℕ
  ws : Multiset WStatus
  processed : Multiset ℕ
  doneReports : ℕ
  closeReturned : Bool

/-- Interleaved events after `close(JobChan)`:
a running worker receives the next buffered job; a worker finishes its
job (response written, connection closed by `processRequests`); a
running worker observes the closed channel empty, exits its loop and
reports `wg.Done()`; `wg.Wait` returns once the done-counter reaches the
worker count. -/
inductive ShutStep : ShutState → ShutState → Prop where
  | dequeue (j : ℕ) (rest : List ℕ) (ws' : Multiset WStatus) (s : ShutState)
      (hb : s.buffer = j :: rest) (hw : s.ws = .running ::ₘ ws') :
      ShutStep s { s with buffer := rest, ws := .processing j ::ₘ ws' }
  | finish (j : ℕ) (ws' : Multiset WStatus) (s : ShutState)
      (hw : s.ws = .processing j ::ₘ ws') :
      ShutStep s { s with ws := .running ::ₘ ws', processed := j ::ₘ s.processed }
  | exit (ws' : Multiset WStatus) (s : ShutState)
      (hb : s.buffer = []) (hw : s.ws = .running ::ₘ ws') :
      ShutStep s { s with ws := .done ::ₘ ws', doneReports := s.doneReports + 1 }
  | closeRet (s : ShutState)
      (h : s.doneReports = Multiset.card s.ws) (h2 : s.closeReturned = false) :
      ShutStep s { s with closeReturned := true }

/-- Initial drain state: `close(JobChan)` has just run with `jobs0`
still buffered and all `W` workers blocked in their receive loop. -/
def shutInit (W : ℕ) (jobs0 : List ℕ) : ShutState :=
  { buffer := jobs0
    ws := Multiset.replicate W .running
    processed := 0
    doneReports := 0
    closeReturned := false }

/-- States reachable during the drain. -/
def ShutReachable (W : ℕ) (jobs0 : List ℕ) : ShutState → Prop :=
  Relation.ReflTransGen ShutStep (shutInit W jobs0)

/-- The jobs currently held by busy workers. -/
def heldJobs (ws : Multiset WStatus) : Multiset ℕ :=
  ws.filterMap fun w =>
    match w with
    | .processing j => some j
    | _ => none

/-- Whether a worker has exited and reported completion. -/
def isDone (w : WStatus) : Bool :=
  match w with
  | .done => true
  | _ => false

/-! ## Concrete states used as witness inputs -/

/-- A dispatcher state whose queue is full and open, with the limiter
disabled (`MaxTokens = 0`): capacity 1 (one worker, zero queue slots)
and one queued job. -/
def busyDispState : DispState :=
  { limiter := RateLimiter 0 0 0
    chan := { buffer := [{ Id := 1, Conn := 1 }], capacity := 1, closed := false }
    connCount := 1
    processedMetric := 1 }

/-- A dispatcher state whose queue has been closed by shutdown, with the
limiter disabled. -/
def closingDispState : DispState :=
  { limiter := RateLimiter 0 0 0
    chan := { buffer := [], capacity := 2, closed := true }
    connCount := 3
    processedMetric := 3 }

/-- The token-bucket state right after the initial burst of a
`RateLimiter(rate=1, tokens=1)` limiter: one allowed call at time 0
consumed the only token, a second call at time 0 was denied. -/
def drainedBucket : TokenBucket :=
  (IsReqAllowed (IsReqAllowed (RateLimiter 1 1 0) 0).2 0).2

/-- Inductive invariant of the shutdown drain: the initially buffered
jobs are split among the buffer, the busy workers and the processed
multiset; the worker roster size is constant; the `wg.Done` counter
equals the number of workers that have exited (each exits and reports at
most once — a `done` worker has no further transition); once all workers
are done the buffer has been drained; and `Close` can only have returned
with every worker done. -/
def shutInv (W : ℕ) (jobs0 : List ℕ) (s : ShutState) : Prop :=
  ((s.buffer : Multiset ℕ) + heldJobs s.ws + s.processed = (jobs0 : Multiset ℕ)) ∧
  Multiset.card s.ws = W ∧
  s.doneReports = Multiset.count .done s.ws ∧
  (Multiset.count .done s.ws = W → s.buffer = []) ∧
  (s.closeReturned = true → Multiset.count .done s.ws = W)

/-- The final state of a zero-worker drain: `close(JobChan)` ran with
job 7 still queued, `wg.Wait()` returned immediately (the waitgroup
counter is zero when no worker was ever launched), and the job was never
processed. -/
def shutNoWorkerFinal : ShutState :=
  { buffer := [7]
    ws := 0
    processed := 0
    doneReports := 0
    closeReturned := true }

/-- The final state of a one-worker drain of the queue `[7]`: the
worker received job 7, processed it, exited and reported, and `Close`
returned. -/
def shutOneWorkerFinal : ShutState :=
  { buffer := []
    ws := {WStatus.done}
    processed := {7}
    doneReports := 1
    closeReturned := true }

end Tcpie

namespace Tcpie

/-! ## Helper lemmas -/

theorem goInt64OfFloat_of_nonneg {q : ℚ} (h : 0 ≤ q) :
    goInt64OfFloat q = ⌊q⌋ := by
  simp [goInt64OfFloat, h]

theorem drainedBucket_eq :
    drainedBucket = { MaxTokens := 1, Tokens := 0, Rate := 1, LastRefill := 0 } := by
  simp only [drainedBucket, IsReqAllowed, RateLimiter, refillBucket, goInt64OfFloat]
  norm_num

/-- The reassembled wire bytes of the 429 rejection are exactly the
source's byte-string literal. -/
theorem wire_resp429 :
    wire resp429 =
      "HTTP/1.1 429 Too Many Requests\r\nConnection: close\r\nContent-Length: 20\r\n\r\nRate limit exceeded" := by
  rfl

theorem wire_resp503Busy :
    wire resp503Busy =
      "HTTP/1.1 503 Service Unavailable\r\nConnection: close\r\nContent-Length: 28\r\n\r\nServer busy, try again later" := by
  rfl

theorem wire_resp503Shutdown :
    wire resp503Shutdown =
      "HTTP/1.1 503 Service Unavailable\r\nConnection: close\r\nContent-Length: 28\r\n\r\nServer shutting down" := by
  rfl

theorem wire_resp408 :
    wire resp408 =
      "HTTP/1.1 408 Request Timeout\r\nConnection: close\r\nContent-Length: 0\r\n\r\n" := by
  rfl

theorem wire_resp200 :
    wire resp200 =
      "HTTP/1.1 200 OK\r\nConnection: close\r\nContent-Length: 14\r\n\r\nHello world !\n" := by
  rfl

/-! ## C5 — rejection responses are written before close, but two of the
three declared Content-Lengths do not match the bodies -/

/-- C5: Every rejected connection does receive a synchronous response
before closure (see `handleConn`), but the claim that each rejection's
declared `Content-Length` equals its body length fails on the code: the
429 response declares 20 bytes for the 19-byte body
`"Rate limit exceeded"`, and the shutting-down 503 declares 28 bytes for
the 20-byte body `"Server shutting down"`; only the busy 503 (28/28)
matches.  A client that trusts the header waits for bytes that never
come. -/
theorem contentLength_mismatch :
    resp429.declaredContentLength = 20 ∧ resp429.body.length = 19 ∧
    resp503Shutdown.declaredContentLength = 28 ∧ resp503Shutdown.body.length = 20 ∧
    resp503Busy.declaredContentLength = 28 ∧ resp503Busy.body.length = 28 ∧
    resp429.declaredContentLength ≠ resp429.body.length ∧
    resp503Shutdown.declaredContentLength ≠ resp503Shutdown.body.length ∧
    (handleConn busyDispState 9 0).2.responseWritten = some resp503Busy ∧
    (handleConn busyDispState 9 0).2.connClosed = true := by
  decide

/-! ## C1 — admission step is non-blocking; full queue means immediate
busy rejection -/

/-- C1: In any dispatcher state whose queue is open, once the
rate-limit gate passes, the per-connection admission step (a total
function — the embedded `select`/`default` never suspends) accepts the
submission iff the queue has free capacity at that moment, and on a full
queue it immediately produces the 503 busy rejection: response written,
connection closed, metric untouched, accept loop not crashed. -/
theorem admission_nonblocking (s : DispState) (client : ℕ) (now : ℚ)
    (hopen : s.chan.closed = false)
    (hrate : (rateCheckDenies s.limiter now).1 = false) :
    ((handleConn s client now).2.outcome = .accepted ↔
      s.chan.buffer.length < s.chan.capacity) ∧
    (s.chan.capacity ≤ s.chan.buffer.length →
      (handleConn s client now).2 =
        { outcome := .busy, responseWritten := some resp503Busy,
          connClosed := true, crashed := false } ∧
      (handleConn s client now).1.chan = s.chan ∧
      (handleConn s client now).1.processedMetric = s.processedMetric) := by
  simp only [handleConn, selectTrySend, hopen, hrate]
  by_cases hlt : s.chan.buffer.length < s.chan.capacity
  · simp [hlt]
  · simp [hlt]

/-- Witness for C1 at the concrete full-queue state `busyDispState`. -/
theorem admission_nonblocking_witness :
    busyDispState.chan.closed = false ∧
    (rateCheckDenies busyDispState.limiter 0).1 = false ∧
    busyDispState.chan.capacity ≤ busyDispState.chan.buffer.length ∧
    ((handleConn busyDispState 9 0).2.outcome = .accepted ↔
      busyDispState.chan.buffer.length < busyDispState.chan.capacity) ∧
    (handleConn busyDispState 9 0).2 =
      { outcome := .busy, responseWritten := some resp503Busy,
        connClosed := true, crashed := false } :=
  ⟨by decide, by decide, by decide,
   (admission_nonblocking busyDispState 9 0 (by decide) (by decide)).1,
   ((admission_nonblocking busyDispState 9 0 (by decide) (by decide)).2
     (by decide)).1⟩

/-! ## C3 — submission racing with shutdown degrades to a 503
shutting-down rejection, not a crash -/

/-- C3: If the queue has been closed before the submission completes
(the connection already passed rate limiting), the send on the closed
channel panics, the `recover` handler turns it into the shutting-down
503 — response written, connection closed — the queue is left untouched,
the `processed` metric is not incremented, and the accept loop does not
crash. -/
theorem shutdown_race_rejection (s : DispState) (client : ℕ) (now : ℚ)
    (hclosed : s.chan.closed = true)
    (hrate : (rateCheckDenies s.limiter now).1 = false) :
    (handleConn s client now).2 =
      { outcome := .shuttingDown, responseWritten := some resp503Shutdown,
        connClosed := true, crashed := false } ∧
    (handleConn s client now).1.chan = s.chan ∧
    (handleConn s client now).1.processedMetric = s.processedMetric := by
  simp [handleConn, selectTrySend, hclosed, hrate]

/-- Witness for C3 at the concrete post-shutdown state
`closingDispState`. -/
theorem shutdown_race_rejection_witness :
    closingDispState.chan.closed = true ∧
    (rateCheckDenies closingDispState.limiter 0).1 = false ∧
    (handleConn closingDispState 9 0).2 =
      { outcome := .shuttingDown, responseWritten := some resp503Shutdown,
        connClosed := true, crashed := false } :=
  ⟨by decide, by decide,
   (shutdown_race_rejection closingDispState 9 0 (by decide) (by decide)).1⟩

/-! ## C8 — a `MaxTokens = 0` limiter is disabled at the call site -/

theorem handleConn_limiter_disabled (s : DispState) (client : ℕ) (now : ℚ)
    (h : s.limiter.MaxTokens = 0) :
    (handleConn s client now).1.limiter = s.limiter ∧
    (handleConn s client now).2.outcome ≠ .rateLimited := by
  have hrc : rateCheckDenies s.limiter now = (false, s.limiter) := by
    simp [rateCheckDenies, h]
  simp only [handleConn, hrc]
  cases htr : selectTrySend s.chan { Id := s.connCount + 1, Conn := client } <;>
    simp [htr]

/-- C8: With `MaxTokens = 0`, Go's short-circuit `&&` in
`s.reqLimiter.MaxTokens > 0 && !s.reqLimiter.IsReqAllowed()` makes the
dispatcher skip the limiter entirely: over any finite sequence of
accepted connections, no 429 outcome is ever produced on the limiter
path and the limiter state is never touched. -/
theorem disabled_limiter_admits_all (s : DispState) (xs : List (ℕ × ℚ))
    (h : s.limiter.MaxTokens = 0) :
    (∀ r ∈ (runConns s xs).2, r.outcome ≠ .rateLimited) ∧
    (runConns s xs).1.limiter = s.limiter := by
  induction xs generalizing s with
  | nil => simp [runConns]
  | cons x rest ih =>
      obtain ⟨client, now⟩ := x
      have hc := handleConn_limiter_disabled s client now h
      have hnext : (handleConn s client now).1.limiter.MaxTokens = 0 := by
        rw [hc.1]; exact h
      have ihr := ih (handleConn s client now).1 hnext
      refine ⟨?_, ?_⟩
      · intro r hr
        simp only [runConns, List.mem_cons] at hr
        rcases hr with hr | hr
        · exact hr ▸ hc.2
        · exact ihr.1 r hr
      · simp only [runConns]
        rw [ihr.2, hc.1]

/-- Witness for C8: three connections at the disabled-limiter state. -/
theorem disabled_limiter_admits_all_witness :
    closingDispState.limiter.MaxTokens = 0 ∧
    (∀ r ∈ (runConns closingDispState [(1, 0), (2, 0), (3, 0)]).2,
      r.outcome ≠ .rateLimited) ∧
    (runConns closingDispState [(1, 0), (2, 0), (3, 0)]).1.limiter =
      closingDispState.limiter :=
  ⟨by decide,
   (disabled_limiter_admits_all closingDispState [(1, 0), (2, 0), (3, 0)] (by decide)).1,
   (disabled_limiter_admits_all closingDispState [(1, 0), (2, 0), (3, 0)] (by decide)).2⟩

/-! ## C9 — the request processor closes the connection exactly once on
every path -/

/-- C9: For every environment outcome (read error, write error, bytes
written), the processor's action trace contains exactly one `closeConn`,
the trace ends with it (no path returns with the connection open), and
the three exit paths are mutually exclusive and exhaustive: read failure
→ the 408-then-close path, short/failed 200 write → the close path,
otherwise the success path. -/
theorem processor_closes_exactly_once (readErr writeErr : Bool) (bytesWritten : ℕ) :
    ((processRequests readErr writeErr bytesWritten).1.count .closeConn = 1) ∧
    ((processRequests readErr writeErr bytesWritten).1.getLast? = some .closeConn) ∧
    ((processRequests readErr writeErr bytesWritten).2 = .readFailurePath ↔
      readErr = true) ∧
    ((processRequests readErr writeErr bytesWritten).2 = .writeFailurePath ↔
      (readErr = false ∧ (writeErr = true ∨ bytesWritten ≠ (wire resp200).length))) ∧
    ((processRequests readErr writeErr bytesWritten).2 = .successPath ↔
      (readErr = false ∧ writeErr = false ∧ bytesWritten = (wire resp200).length)) := by
  cases readErr with
  | true => simp [processRequests]
  | false =>
      cases writeErr with
      | true => simp [processRequests]
      | false =>
          by_cases hb : bytesWritten = (wire resp200).length
          · simp [processRequests, hb]
          · simp [processRequests, hb]

/-! ## C10 — the pool's own `SubmitJob` is blocking and shutdown-unsafe;
the dispatcher's non-blocking admission bypasses it -/

/-- C10: `SubmitJob` is the bare channel send `w.JobChan <- j`:
on a full open queue it suspends the caller (no rejection result
exists), and after `Close` it panics (send on closed channel).  The
non-blocking behaviour the dispatcher relies on lives only in
`selectTrySend` — the dispatcher's own `select`/`default` directly on
the channel, which `handleConn` uses instead of `SubmitJob` — which
returns the busy rejection on the same full queue. -/
theorem submitJob_blocks_or_panics (c : ChanState) (j : Job) :
    (c.closed = false → c.capacity ≤ c.buffer.length →
      SubmitJob c j = .blocked ∧ selectTrySend c j = .full) ∧
    (c.closed = true →
      SubmitJob c j = .panicked ∧ selectTrySend c j = .closedPanic) := by
  constructor
  · intro hopen hfull
    have : ¬ c.buffer.length < c.capacity := by omega
    simp [SubmitJob, selectTrySend, hopen, this]
  · intro hclosed
    simp [SubmitJob, selectTrySend, hclosed]

/-- Witness for C10: a full open channel of capacity 1, and the same
channel closed. -/
theorem submitJob_blocks_or_panics_witness :
    (busyDispState.chan.closed = false ∧
      busyDispState.chan.capacity ≤ busyDispState.chan.buffer.length ∧
      SubmitJob busyDispState.chan { Id := 9, Conn := 9 } = .blocked ∧
      selectTrySend busyDispState.chan { Id := 9, Conn := 9 } = .full) ∧
    (closingDispState.chan.closed = true ∧
      SubmitJob closingDispState.chan { Id := 9, Conn := 9 } = .panicked) :=
  ⟨⟨by decide, by decide,
    ((submitJob_blocks_or_panics busyDispState.chan { Id := 9, Conn := 9 }).1
      (by decide) (by decide)).1,
    ((submitJob_blocks_or_panics busyDispState.chan { Id := 9, Conn := 9 }).1
      (by decide) (by decide)).2⟩,
   ⟨by decide,
    ((submitJob_blocks_or_panics closingDispState.chan { Id := 9, Conn := 9 }).2
      (by decide)).1⟩⟩

/-! ## C6 — fractional refill accrual is truncated on every check -/

/-- C6: The refill is *not* a continuous fractional accrual.
`refillBucket` stores the refilled count back into the `int64` field
`Tokens` via `int64(math.Min(...))` and resets `LastRefill` on every
call, so each call discards the fractional part of
`elapsed_seconds * rate` forever.  Concretely, with
`RateLimiter(rate=1, tokens=1)`: the first call at `t = 0` consumes the
token; the second call at `t = 0` is a denial; admission checks at
`t = 1/2` and `t = 1` — a total elapsed time of `1/rate = 1` second
after the denial — are *both* denied (each half-second refill truncates
`0.5` tokens to `0`), although a single check at `t = 1` from the same
denial state is allowed.  Over many rapid sub-second checks the total
added stays zero and never converges to `elapsed × rate`, contradicting
the claim and the code's own comment
`// Use float64 to avoid integer division truncation`. -/
theorem refill_truncated_per_call :
    (IsReqAllowed (RateLimiter 1 1 0) 0).1 = true ∧
    (IsReqAllowed (IsReqAllowed (RateLimiter 1 1 0) 0).2 0).1 = false ∧
    (IsReqAllowed drainedBucket (1/2)).1 = false ∧
    (IsReqAllowed (IsReqAllowed drainedBucket (1/2)).2 1).1 = false ∧
    (IsReqAllowed drainedBucket 1).1 = true := by
  rw [drainedBucket_eq]
  refine ⟨?_, ?_, ?_, ?_, ?_⟩ <;>
    · simp only [IsReqAllowed, RateLimiter, refillBucket, goInt64OfFloat]
      norm_num

/-! ## C7 — token bounds hold; but tokens are set to the *floor* of
`min(maxTokens, tokens + elapsed*rate)`, not to the `min` itself -/

/-- C7 counterexample: at the post-denial bucket
`{MaxTokens := 1, Tokens := 0, Rate := 1, LastRefill := 0}` refilled at
`now = 1/2`, the code leaves `Tokens = 0`, but
`min(maxTokens, tokens + elapsed_seconds * rate) = 1/2`: the refill does
not set `tokens` to that `min`, it truncates it to an integer. -/
theorem refill_not_exact_min :
    ¬ (((refillBucket drainedBucket (1/2)).Tokens : ℚ) =
        min ((drainedBucket.Tokens : ℚ) +
              ((1/2 : ℚ) - drainedBucket.LastRefill) * (drainedBucket.Rate : ℚ))
            (drainedBucket.MaxTokens : ℚ)) := by
  rw [drainedBucket_eq]
  simp only [refillBucket, goInt64OfFloat]
  norm_num

/-- C7 as amended: on a monotone clock with nonnegative rate, refilling
preserves `0 ≤ tokens ≤ maxTokens`, sets `tokens` to the **floor** of
`min(maxTokens, tokens + elapsed_seconds * rate)` (the fractional part
is discarded), and updates the last-refill timestamp to `now`; the
admission check preserves the same bounds and decrements by exactly one
iff it allows. -/
theorem refill_floor_and_bounds (tb : TokenBucket) (now : ℚ)
    (h0 : 0 ≤ tb.Tokens) (h1 : tb.Tokens ≤ tb.MaxTokens)
    (h2 : tb.LastRefill ≤ now) (h3 : 0 ≤ tb.Rate) :
    0 ≤ (refillBucket tb now).Tokens ∧
    (refillBucket tb now).Tokens ≤ tb.MaxTokens ∧
    (refillBucket tb now).LastRefill = now ∧
    (refillBucket tb now).Tokens =
      ⌊min ((tb.Tokens : ℚ) + (now - tb.LastRefill) * (tb.Rate : ℚ))
          (tb.MaxTokens : ℚ)⌋ ∧
    0 ≤ (IsReqAllowed tb now).2.Tokens ∧
    (IsReqAllowed tb now).2.Tokens ≤ tb.MaxTokens ∧
    ((IsReqAllowed tb now).1 = true ↔ 0 < (refillBucket tb now).Tokens) ∧
    ((IsReqAllowed tb now).1 = true →
      (IsReqAllowed tb now).2.Tokens = (refillBucket tb now).Tokens - 1) ∧
    ((IsReqAllowed tb now).1 = false →
      (IsReqAllowed tb now).2.Tokens = (refillBucket tb now).Tokens) := by
  have hq : (0 : ℚ) ≤ min ((tb.Tokens : ℚ) + (now - tb.LastRefill) * (tb.Rate : ℚ))
      (tb.MaxTokens : ℚ) := by
    have hadd : (0 : ℚ) ≤ (now - tb.LastRefill) * (tb.Rate : ℚ) := by
      apply mul_nonneg
      · linarith
      · exact_mod_cast h3
    have htok : (0 : ℚ) ≤ (tb.Tokens : ℚ) := by exact_mod_cast h0
    have hmax : (0 : ℚ) ≤ (tb.MaxTokens : ℚ) := by
      exact_mod_cast le_trans h0 h1
    exact le_min (by linarith) hmax
  have hfloor : (refillBucket tb now).Tokens =
      ⌊min ((tb.Tokens : ℚ) + (now - tb.LastRefill) * (tb.Rate : ℚ))
          (tb.MaxTokens : ℚ)⌋ := by
    simp only [refillBucket]
    exact goInt64OfFloat_of_nonneg hq
  have hlb : 0 ≤ (refillBucket tb now).Tokens := by
    rw [hfloor]
    exact Int.floor_nonneg.mpr hq
  have hub : (refillBucket tb now).Tokens ≤ tb.MaxTokens := by
    rw [hfloor]
    calc ⌊min ((tb.Tokens : ℚ) + (now - tb.LastRefill) * (tb.Rate : ℚ))
            (tb.MaxTokens : ℚ)⌋
        ≤ ⌊(tb.MaxTokens : ℚ)⌋ := Int.floor_le_floor (min_le_right _ _)
      _ = tb.MaxTokens := Int.floor_intCast _
  have hlast : (refillBucket tb now).LastRefill = now := by
    simp [refillBucket]
  refine ⟨hlb, hub, hlast, hfloor, ?_, ?_, ?_, ?_, ?_⟩ <;>
    · simp only [IsReqAllowed]
      by_cases hpos : 0 < (refillBucket tb now).Tokens <;>
        simp [hpos] <;> omega

/-- Witness for C7's amended theorem at a fresh
`RateLimiter(rate=2, tokens=5)` bucket checked three seconds later. -/
theorem refill_floor_and_bounds_witness :
    0 ≤ (RateLimiter 2 5 0).Tokens ∧
    (RateLimiter 2 5 0).Tokens ≤ (RateLimiter 2 5 0).MaxTokens ∧
    (RateLimiter 2 5 0).LastRefill ≤ 3 ∧
    0 ≤ (RateLimiter 2 5 0).Rate ∧
    (refillBucket (RateLimiter 2 5 0) 3).Tokens =
      ⌊min (((RateLimiter 2 5 0).Tokens : ℚ) +
            ((3 : ℚ) - (RateLimiter 2 5 0).LastRefill) * ((RateLimiter 2 5 0).Rate : ℚ))
          ((RateLimiter 2 5 0).MaxTokens : ℚ)⌋ :=
  ⟨by decide, by decide, by norm_num [RateLimiter], by decide,
   (refill_floor_and_bounds (RateLimiter 2 5 0) 3 (by decide) (by decide)
     (by norm_num [RateLimiter]) (by decide)).2.2.2.1⟩

/-! ## C2 — the true in-flight bound is `2W + Q`, not `W + Q` -/

theorem pool_inv {cfg : PoolCfg} {s : PoolState} (h : PoolReachable cfg s) :
    s.buffer.length ≤ cfg.W + cfg.Q ∧ s.processing ≤ cfg.W := by
  induction h with
  | refl => simp
  | tail _ hstep ih =>
      cases hstep with
      | submit j s h => simpa using ⟨h, ih.2⟩
      | dequeue j rest s hb hw =>
          refine ⟨?_, hw⟩
          have := ih.1
          rw [hb] at this
          simpa using Nat.le_of_succ_le this
      | finish s h => exact ⟨ih.1, le_trans (Nat.sub_le _ _) ih.2⟩

theorem submitMany_counts (cap : ℕ) (jobs : List ℕ) :
    ∀ buf : List ℕ,
      (submitMany cap buf jobs).1 = min (cap - buf.length) jobs.length ∧
      (submitMany cap buf jobs).2 = jobs.length - (cap - buf.length) := by
  induction jobs with
  | nil => intro buf; simp [submitMany]
  | cons j rest ih =>
      intro buf
      by_cases hlt : buf.length < cap
      · have hrec := ih (buf ++ [j])
        have hla : (buf ++ [j]).length = buf.length + 1 := by simp
        rw [hla] at hrec
        simp only [submitMany, if_pos hlt, hrec.1, hrec.2, List.length_cons]
        omega
      · have hrec := ih buf
        simp only [submitMany, if_neg hlt, hrec.1, hrec.2, List.length_cons]
        omega

/-- C2 counterexample: with `workerCount = 1`, `queueSize = 1` the state
with one job being processed and two jobs queued — three in-flight jobs,
exceeding `W + Q = 2` — is reachable: submit twice into the empty
channel (capacity `W + Q = 2`), a worker dequeues one, and a third
submission then finds free buffer space and is accepted.  The channel
capacity bounds only the *queued* jobs; a job held by a busy worker has
already left the buffer. -/
theorem inflight_exceeds_capacity :
    PoolReachable { W := 1, Q := 1 } { buffer := [2, 3], processing := 1 } ∧
    inFlight { buffer := [2, 3], processing := 1 } = 3 ∧
    ¬ inFlight { buffer := [2, 3], processing := 1 } ≤
        PoolCfg.W { W := 1, Q := 1 } + PoolCfg.Q { W := 1, Q := 1 } := by
  refine ⟨?_, by decide, by decide⟩
  have h1 : PoolStep { W := 1, Q := 1 } { buffer := [], processing := 0 }
      { buffer := [1], processing := 0 } :=
    PoolStep.submit 1 { buffer := [], processing := 0 } (by decide)
  have h2 : PoolStep { W := 1, Q := 1 } { buffer := [1], processing := 0 }
      { buffer := [1, 2], processing := 0 } :=
    PoolStep.submit 2 { buffer := [1], processing := 0 } (by decide)
  have h3 : PoolStep { W := 1, Q := 1 } { buffer := [1, 2], processing := 0 }
      { buffer := [2], processing := 1 } :=
    PoolStep.dequeue 1 [2] { buffer := [1, 2], processing := 0 } rfl (by decide)
  have h4 : PoolStep { W := 1, Q := 1 } { buffer := [2], processing := 1 }
      { buffer := [2, 3], processing := 1 } :=
    PoolStep.submit 3 { buffer := [2], processing := 1 } (by decide)
  exact .tail (.tail (.tail (.tail .refl h1) h2) h3) h4

/-- C2 as amended: in every reachable state the queued jobs never exceed
the channel capacity `W + Q` and at most `W` jobs are in processing, so
in-flight jobs (queued plus processing) never exceed `2W + Q` — not
`W + Q` as claimed; and the concurrent-submission bound does hold as
stated: submitting `W + Q + 1` jobs while every worker is held busy (no
dequeue interleaves) accepts exactly `W + Q` and rejects the rest. -/
theorem inflight_bound_and_admission (cfg : PoolCfg) (s : PoolState)
    (h : PoolReachable cfg s) (jobs : List ℕ)
    (hn : jobs.length = cfg.W + cfg.Q + 1) :
    s.buffer.length ≤ cfg.W + cfg.Q ∧
    s.processing ≤ cfg.W ∧
    inFlight s ≤ 2 * cfg.W + cfg.Q ∧
    (submitMany (cfg.W + cfg.Q) [] jobs).1 = cfg.W + cfg.Q ∧
    (submitMany (cfg.W + cfg.Q) [] jobs).2 = 1 := by
  have hi := pool_inv h
  have hc := submitMany_counts (cfg.W + cfg.Q) jobs []
  refine ⟨hi.1, hi.2, ?_, ?_, ?_⟩
  · unfold inFlight; omega
  · rw [hc.1]; simp only [List.length_nil, hn]; omega
  · rw [hc.2]; simp only [List.length_nil, hn]; omega

/-- Witness for C2's amended theorem: `W = 1`, `Q = 1`, the reachable
three-in-flight state, and three concurrent submissions. -/
theorem inflight_bound_and_admission_witness :
    PoolReachable { W := 1, Q := 1 } { buffer := [2, 3], processing := 1 } ∧
    ([5, 6, 7] : List ℕ).length = 1 + 1 + 1 ∧
    (inFlight { buffer := [2, 3], processing := 1 } ≤ 2 * 1 + 1 ∧
      (submitMany (1 + 1) [] [5, 6, 7]).1 = 1 + 1 ∧
      (submitMany (1 + 1) [] [5, 6, 7]).2 = 1) := by
  have hr : PoolReachable { W := 1, Q := 1 } { buffer := [2, 3], processing := 1 } := by
    have h1 : PoolStep { W := 1, Q := 1 } { buffer := [], processing := 0 }
        { buffer := [1], processing := 0 } :=
      PoolStep.submit 1 { buffer := [], processing := 0 } (by decide)
    have h2 : PoolStep { W := 1, Q := 1 } { buffer := [1], processing := 0 }
        { buffer := [1, 2], processing := 0 } :=
      PoolStep.submit 2 { buffer := [1], processing := 0 } (by decide)
    have h3 : PoolStep { W := 1, Q := 1 } { buffer := [1, 2], processing := 0 }
        { buffer := [2], processing := 1 } :=
      PoolStep.dequeue 1 [2] { buffer := [1, 2], processing := 0 } rfl (by decide)
    have h4 : PoolStep { W := 1, Q := 1 } { buffer := [2], processing := 1 }
        { buffer := [2, 3], processing := 1 } :=
      PoolStep.submit 3 { buffer := [2], processing := 1 } (by decide)
    exact .tail (.tail (.tail (.tail .refl h1) h2) h3) h4
  have happ := inflight_bound_and_admission { W := 1, Q := 1 }
    { buffer := [2, 3], processing := 1 } hr [5, 6, 7] (by decide)
  exact ⟨hr, by decide, happ.2.2.1, happ.2.2.2.1, happ.2.2.2.2⟩

/-! ## C4 — graceful shutdown drains completely (for a pool with at
least one worker) -/

theorem heldJobs_cons_running (ws : Multiset WStatus) :
    heldJobs (.running ::ₘ ws) = heldJobs ws :=
  Multiset.filterMap_cons_none _ _ rfl

theorem heldJobs_cons_done (ws : Multiset WStatus) :
    heldJobs (.done ::ₘ ws) = heldJobs ws :=
  Multiset.filterMap_cons_none _ _ rfl

theorem heldJobs_cons_processing (j : ℕ) (ws : Multiset WStatus) :
    heldJobs (.processing j ::ₘ ws) = j ::ₘ heldJobs ws :=
  Multiset.filterMap_cons_some _ _ _ rfl

theorem heldJobs_replicate_running (n : ℕ) :
    heldJobs (Multiset.replicate n .running) = 0 := by
  induction n with
  | zero => rfl
  | succ n ih => rw [Multiset.replicate_succ, heldJobs_cons_running, ih]

theorem heldJobs_of_all_done {ws : Multiset WStatus}
    (h : ∀ w ∈ ws, w = WStatus.done) : heldJobs ws = 0 := by
  induction ws using Multiset.induction_on with
  | empty => rfl
  | cons a s ih =>
      have ha : a = WStatus.done := h a (Multiset.mem_cons_self a s)
      rw [ha, heldJobs_cons_done]
      exact ih fun w hw => h w (Multiset.mem_cons_of_mem hw)

theorem shut_inv {W : ℕ} {jobs0 : List ℕ} {s : ShutState}
    (hW : 1 ≤ W) (h : ShutReachable W jobs0 s) : shutInv W jobs0 s := by
  induction h with
  | refl =>
      refine ⟨?_, ?_, ?_, ?_, ?_⟩
      · simp [shutInit, heldJobs_replicate_running]
      · simp [shutInit]
      · simp [shutInit, Multiset.count_replicate]
      · intro hcd
        exfalso
        simp only [shutInit, Multiset.count_replicate] at hcd
        rw [if_neg (by simp)] at hcd
        omega
      · simp [shutInit]
  | tail hreach hstep ih =>
      obtain ⟨i1, i2, i3, i4, i5⟩ := ih
      cases hstep with
      | dequeue j rest ws' s hb hw =>
          rw [hb, hw] at i1
          rw [hw] at i2 i3 i4 i5
          have hcnt : Multiset.count WStatus.done (WStatus.running ::ₘ ws') =
              Multiset.count WStatus.done ws' :=
            Multiset.count_cons_of_ne (by simp) ws'
          have hcard : Multiset.card ws' + 1 = W := by
            simpa using i2
          have hle : Multiset.count WStatus.done ws' ≤ Multiset.card ws' :=
            Multiset.count_le_card _ _
          refine ⟨?_, ?_, ?_, ?_, ?_⟩
          · rw [heldJobs_cons_processing, Multiset.add_cons, Multiset.cons_add]
            rw [heldJobs_cons_running, ← Multiset.cons_coe, Multiset.cons_add,
              Multiset.cons_add] at i1
            exact i1
          · simpa using i2
          · rw [Multiset.count_cons_of_ne (by simp) ws']
            rw [hcnt] at i3
            exact i3
          · intro hcd
            rw [Multiset.count_cons_of_ne (by simp) ws'] at hcd
            omega
          · intro hcr
            have := i5 hcr
            rw [hcnt] at this
            omega
      | finish j ws' s hw =>
          rw [hw] at i1 i2 i3 i4 i5
          have hcnt : Multiset.count WStatus.done (WStatus.processing j ::ₘ ws') =
              Multiset.count WStatus.done ws' :=
            Multiset.count_cons_of_ne (by simp) ws'
          refine ⟨?_, ?_, ?_, ?_, ?_⟩
          · rw [heldJobs_cons_running, Multiset.add_cons]
            rw [heldJobs_cons_processing, Multiset.add_cons, Multiset.cons_add] at i1
            exact i1
          · simpa using i2
          · rw [Multiset.count_cons_of_ne (by simp) ws']
            rw [hcnt] at i3
            exact i3
          · intro hcd
            rw [Multiset.count_cons_of_ne (by simp) ws'] at hcd
            rw [hcnt] at i4
            exact i4 hcd
          · intro hcr
            have := i5 hcr
            rw [hcnt] at this
            rw [Multiset.count_cons_of_ne (by simp) ws']
            exact this
      | exit ws' s hb hw =>
          rw [hw] at i1 i2 i3 i5
          have hcnt : Multiset.count WStatus.done (WStatus.running ::ₘ ws') =
              Multiset.count WStatus.done ws' :=
            Multiset.count_cons_of_ne (by simp) ws'
          have hcard : Multiset.card ws' + 1 = W := by
            simpa using i2
          have hle : Multiset.count WStatus.done ws' ≤ Multiset.card ws' :=
            Multiset.count_le_card _ _
          refine ⟨?_, ?_, ?_, ?_, ?_⟩
          · rw [heldJobs_cons_done]
            rw [heldJobs_cons_running] at i1
            exact i1
          · simpa using i2
          · dsimp only
            rw [Multiset.count_cons_self]
            rw [hcnt] at i3
            omega
          · intro _
            exact hb
          · intro hcr
            have hW' := i5 hcr
            rw [hcnt] at hW'
            rw [Multiset.count_cons_self]
            omega
      | closeRet s hdone _ =>
          refine ⟨i1, i2, i3, i4, fun _ => ?_⟩
          rw [← i3, hdone, i2]

/-- C4 counterexample: the claim fails for a pool with zero workers.
`NewWorkerPool(0, q)` launches no workers, so `wg.Wait()` returns
immediately: `Close` returns with job 7 still sitting unprocessed in the
queue. -/
theorem drain_incomplete_without_workers :
    ShutReachable 0 [7] shutNoWorkerFinal ∧
    shutNoWorkerFinal.closeReturned = true ∧
    shutNoWorkerFinal.processed ≠ (([7] : List ℕ) : Multiset ℕ) ∧
    shutNoWorkerFinal.buffer ≠ [] := by
  refine ⟨?_, rfl, by decide, by decide⟩
  have hstep : ShutStep (shutInit 0 [7]) shutNoWorkerFinal :=
    ShutStep.closeRet (shutInit 0 [7]) (by decide) rfl
  exact .tail .refl hstep

/-- C4 as amended: for a pool with at least one worker, in every
reachable drain state in which `Close` has returned, every job that was
in the queue when the channel was closed has been processed (the
processed multiset is exactly the closed-over queue contents), the
buffer is empty, every worker loop has terminated in the `done` state,
and the number of `wg.Done` completion reports equals the worker count —
each worker reported exactly once (a `done` worker has no further
transitions). -/
theorem graceful_drain (W : ℕ) (jobs0 : List ℕ) (s : ShutState)
    (hW : 1 ≤ W) (h : ShutReachable W jobs0 s)
    (hc : s.closeReturned = true) :
    s.processed = (jobs0 : Multiset ℕ) ∧
    s.buffer = [] ∧
    s.doneReports = W ∧
    Multiset.card s.ws = W ∧
    (∀ w ∈ s.ws, w = WStatus.done) := by
  obtain ⟨i1, i2, i3, i4, i5⟩ := shut_inv hW h
  have hcd : Multiset.count WStatus.done s.ws = W := i5 hc
  have hall : ∀ w ∈ s.ws, w = WStatus.done := by
    intro w hw
    exact (Multiset.count_eq_card.mp (by rw [hcd, i2]) w hw).symm
  have hbuf : s.buffer = [] := i4 hcd
  have hheld : heldJobs s.ws = 0 := heldJobs_of_all_done hall
  refine ⟨?_, hbuf, ?_, i2, hall⟩
  · rw [hbuf, hheld] at i1
    simpa using i1
  · rw [i3, hcd]

/-- Witness for C4's amended theorem: one worker draining the
single-job queue `[7]`, then exiting and letting `Close` return. -/
theorem graceful_drain_witness :
    (1 ≤ 1) ∧ shutOneWorkerFinal.closeReturned = true ∧
    (shutOneWorkerFinal.processed = (([7] : List ℕ) : Multiset ℕ) ∧
      shutOneWorkerFinal.buffer = [] ∧
      shutOneWorkerFinal.doneReports = 1 ∧
      Multiset.card shutOneWorkerFinal.ws = 1 ∧
      (∀ w ∈ shutOneWorkerFinal.ws, w = WStatus.done)) := by
  have h1 : ShutStep (shutInit 1 [7])
      { buffer := [], ws := {WStatus.processing 7}, processed := 0,
        doneReports := 0, closeReturned := false } :=
    ShutStep.dequeue 7 [] 0 (shutInit 1 [7]) rfl rfl
  have h2 : ShutStep
      { buffer := [], ws := {WStatus.processing 7}, processed := 0,
        doneReports := 0, closeReturned := false }
      { buffer := [], ws := {WStatus.running}, processed := {7},
        doneReports := 0, closeReturned := false } :=
    ShutStep.finish 7 0 _ rfl
  have h3 : ShutStep
      { buffer := [], ws := {WStatus.running}, processed := {7},
        doneReports := 0, closeReturned := false }
      { buffer := [], ws := {WStatus.done}, processed := {7},
        doneReports := 1, closeReturned := false } :=
    ShutStep.exit 0 _ rfl rfl
  have h4 : ShutStep
      { buffer := [], ws := {WStatus.done}, processed := {7},
        doneReports := 1, closeReturned := false }
      shutOneWorkerFinal :=
    ShutStep.closeRet _ (by decide) rfl
  have hr : ShutReachable 1 [7] shutOneWorkerFinal :=
    .tail (.tail (.tail (.tail .refl h1) h2) h3) h4
  exact ⟨le_refl 1, rfl,
    graceful_drain 1 [7] shutOneWorkerFinal (le_refl 1) hr rfl⟩

end Tcpie
